import Mathlib

/-!
Shallow embedding of `src/gptcache/adapter/openai.py` (the GPTCache OpenAI
adapter): per-modality cache-update callbacks, response builders (chat,
completion, image, audio, moderation), the chat streaming extractor
`hook_openai_data`, token accounting, and the moderation cardinality retry.

External collaborators of the adapter (the response utilities
`get_message_from_openai_answer`, `get_stream_message_from_openai_answer`,
`get_text_from_openai_answer`, `get_image_from_openai_b64`,
`get_image_from_openai_url`, `get_audio_text_from_openai_answer`, the tokenizer
`token_counter`, the image codec (PIL), base64, and the orchestration core
`adapt`) are not part of the source file; they are taken as parameters of the
embedded definitions, so every theorem quantifies over their behaviour.
-/

namespace GPTCacheOpenAI

/-- `gptcache.manager.scalar_data.base.DataType`: the kind tag of a stored
canonical answer. `STR` is the TEXT kind of the specification. -/
inductive DataType where
  | STR
  | IMAGE_BASE64
  | IMAGE_URL
deriving DecidableEq, Repr

/-- `gptcache.manager.scalar_data.base.Answer`: the unit of cache storage,
content (`answer`, of payload type `α`: `String` for text modalities,
`List Nat` byte strings for images) plus its `DataType` tag. -/
structure Answer (α : Type) where
  answer : α
  answer_type : DataType
deriving DecidableEq, Repr

/-! ## Chat streaming extractor (`hook_openai_data`, openai.py lines 88-95)

The Python generator

```
def hook_openai_data(it):
    total_answer = ""
    for item in it:
        total_answer += get_stream_message_from_openai_answer(item)
        yield item
    update_cache_func(Answer(total_answer, DataType.STR))
```

is pull-driven: each `next()` either re-yields the next backend chunk (after
adding its delta text to the accumulator) or, when the backend iterator is
exhausted, fires `update_cache_func` once and stops; further pulls do nothing.
We embed it as a trace function: given the delta extractor
(`get_stream_message_from_openai_answer`, a parameter `delta`), the remaining
backend chunks, the accumulator `total_answer`, and the number of pulls the
consumer performs, it returns the ordered list of observable events. -/

/-- One observable event of the streaming extractor: a chunk re-yielded to the
consumer, or an invocation of `update_cache_func` with a stored answer. -/
inductive StreamEvent (α : Type) where
  | yield (c : α)
  | store (a : Answer String)
deriving DecidableEq, Repr

/-- Trace semantics of the generator `hook_openai_data` (openai.py lines
88-93): `hook_openai_data delta xs acc k` is the event list produced when the
consumer pulls `k` times from the generator whose backend iterator still holds
the chunks `xs` and whose `total_answer` accumulator holds `acc`. A pull with
chunks left accumulates the chunk's delta and yields the chunk unchanged; the
first pull past exhaustion fires the store of the accumulated text as
`DataType.STR`; pulls after that produce nothing. -/
def hook_openai_data {α : Type} (delta : α → String) :
    List α → String → Nat → List (StreamEvent α)
  | _, _, 0 => []
  | [], total_answer, _ + 1 => [.store ⟨total_answer, DataType.STR⟩]
  | item :: it, total_answer, k + 1 =>
      .yield item :: hook_openai_data delta it (total_answer ++ delta item) k

/-- A lazy single-pass stream as the consumer observes it: for each number of
pulls, the events seen. -/
structure LazyStream (α : Type) where
  pull : Nat → List (StreamEvent α)

/-- The backend's own stream of chunks `xs`, unwrapped: pulling `k` times
yields the first `k` chunks and performs no store. -/
def rawStream {α : Type} (xs : List α) : LazyStream α :=
  ⟨fun k => (xs.take k).map StreamEvent.yield⟩

/-- The stream returned by the iterator branch of
`ChatCompletion._update_cache_callback`: the generator `hook_openai_data`
wrapped around the backend chunks `xs`, with an empty accumulator. -/
def hookedStream {α : Type} (delta : α → String) (xs : List α) : LazyStream α :=
  ⟨fun k => hook_openai_data delta xs "" k⟩

/-- The `llm_data` argument of `ChatCompletion._update_cache_callback`: either
a non-streaming chat response of type `β`, or a backend stream (an `Iterator`)
whose finite chunk sequence is `chunks`. -/
inductive ChatLLMData (α β : Type) where
  | resp (r : β)
  | stream (chunks : List α)

/-- What `ChatCompletion._update_cache_callback` returns: the non-streaming
response object itself, or a lazy stream. -/
inductive ChatCallbackReturn (α β : Type) where
  | resp (r : β)
  | stream (s : LazyStream α)

/-- `ChatCompletion._update_cache_callback` (openai.py lines 77-95).
`getMsg` embeds `get_message_from_openai_answer`, `delta` embeds
`get_stream_message_from_openai_answer`. The result pairs the list of
`update_cache_func` invocations performed immediately (before returning) with
the returned value: on a non-`Iterator` input the cache is updated at once with
the extracted message as `DataType.STR` and `llm_data` itself is returned; on
an `Iterator` input nothing is stored yet and the new generator
`hook_openai_data llm_data` is returned. -/
def ChatCompletion.update_cache_callback {α β : Type} (getMsg : β → String)
    (delta : α → String) :
    ChatLLMData α β → List (Answer String) × ChatCallbackReturn α β
  | .resp llm_data => ([⟨getMsg llm_data, DataType.STR⟩], .resp llm_data)
  | .stream llm_data => ([], .stream (hookedStream delta llm_data))

/-- The input `llm_data` of the chat callback, viewed as a return value: the
response itself, or the backend stream unwrapped. The callback returns its
input unchanged exactly when its result equals this. -/
def chatInputAsReturn {α β : Type} : ChatLLMData α β → ChatCallbackReturn α β
  | .resp r => .resp r
  | .stream xs => .stream (rawStream xs)

/-- The chunks among the first `k` events of a stream, in order. -/
def yieldsOf {α : Type} (events : List (StreamEvent α)) : List α :=
  events.filterMap fun e => match e with | .yield c => some c | .store _ => none

/-! Auxiliary lemmas about the generator's trace. -/

/-- Joining a non-empty list of strings splits off the head. -/
theorem string_join_cons (s : String) (l : List String) :
    String.join (s :: l) = s ++ String.join l := by
  apply String.ext
  simp

/-- Pulling at most as many times as there are chunks yields exactly the
chunks pulled, in order, and never stores. -/
theorem hook_openai_data_take {α : Type} (delta : α → String) :
    ∀ (xs : List α) (acc : String) (k : Nat), k ≤ xs.length →
      hook_openai_data delta xs acc k = ((xs.take k).map StreamEvent.yield) := by
  intro xs
  induction xs with
  | nil =>
      intro acc k hk
      rw [Nat.le_zero.mp hk]
      rfl
  | cons x rest ih =>
      intro acc k hk
      cases k with
      | zero => rfl
      | succ k =>
          simp only [hook_openai_data, List.take_succ_cons, List.map_cons]
          rw [ih _ k (Nat.le_of_succ_le_succ hk)]

/-- Pulling past exhaustion yields every chunk unchanged in order and then
fires exactly one store, of the accumulator followed by the concatenated
deltas, tagged `DataType.STR`. -/
theorem hook_openai_data_exhaust {α : Type} (delta : α → String) :
    ∀ (xs : List α) (acc : String) (k : Nat), xs.length < k →
      hook_openai_data delta xs acc k =
        (xs.map StreamEvent.yield) ++
          [.store ⟨acc ++ String.join (xs.map delta), DataType.STR⟩] := by
  intro xs
  induction xs with
  | nil =>
      intro acc k hk
      cases k with
      | zero => exact absurd hk (by simp)
      | succ k => simp [hook_openai_data, String.join]
  | cons x rest ih =>
      intro acc k hk
      cases k with
      | zero => exact absurd hk (by simp)
      | succ k =>
          simp only [hook_openai_data, List.map_cons, List.cons_append]
          rw [ih _ k (Nat.lt_of_succ_lt_succ hk)]
          simp [string_join_cons, String.append_assoc]

/-! ## The other modalities' cache-update callbacks

Each Python callback calls `update_cache_func(Answer(extract(llm_data), kind))`
and returns `llm_data`. We embed each as a function returning the pair
(list of `update_cache_func` invocations, returned value). The extraction
utilities live outside the source file and are parameters. -/

/-- `Completion._update_cache_callback` (openai.py lines 169-174): stores the
text extracted by `get_text_from_openai_answer` (parameter `getText`) as
`DataType.STR` and returns `llm_data`. -/
def Completion.update_cache_callback {β : Type} (getText : β → String) (llm_data : β) :
    List (Answer String) × β :=
  ([⟨getText llm_data, DataType.STR⟩], llm_data)

/-- `Audio.transcribe` and `Audio.translate` share this `update_cache_callback`
(openai.py lines 221-227 and 250-256): stores the text extracted by
`get_audio_text_from_openai_answer` (parameter `getAudioText`) as
`DataType.STR` and returns `llm_data`. -/
def Audio.update_cache_callback {β : Type} (getAudioText : β → String) (llm_data : β) :
    List (Answer String) × β :=
  ([⟨getAudioText llm_data, DataType.STR⟩], llm_data)

/-- What `get_image_from_openai_b64` may return: Python `str` or `bytes`. -/
inductive ImgPayload where
  | str (s : String)
  | bytes (b : List Nat)
deriving DecidableEq, Repr

/-- Python `s.encode("ascii")`: the code points of the string as bytes. -/
def asciiEncode (s : String) : List Nat := s.data.map Char.toNat

/-- `Image.create`'s inner `update_cache_callback` (openai.py lines 308-320).
`getB64` embeds `get_image_from_openai_b64`, `getUrl` embeds
`get_image_from_openai_url` (both outside the source file). When
`response_format` is `b64_json` the base64 payload (ascii-encoded first when it
arrived as `str`) is stored as `DataType.IMAGE_BASE64`; when it is `url` the
url-extractor output is stored as `DataType.IMAGE_URL`; for any other format
nothing is stored. In every case `llm_data` is returned. -/
def Image.update_cache_callback {β : Type} (response_format : String)
    (getB64 : β → ImgPayload) (getUrl : β → List Nat) (llm_data : β) :
    List (Answer (List Nat)) × β :=
  if response_format = "b64_json" then
    let img_b64 := match getB64 llm_data with
      | .str s => asciiEncode s
      | .bytes b => b
    ([⟨img_b64, DataType.IMAGE_BASE64⟩], llm_data)
  else if response_format = "url" then
    ([⟨getUrl llm_data, DataType.IMAGE_URL⟩], llm_data)
  else
    ([], llm_data)

/-- `Moderation._update_cache_callback` (openai.py lines 360-365): stores
`json.dumps(llm_data, indent=4)` (parameter `dumps`) as `DataType.STR` and
returns `llm_data`. -/
def Moderation.update_cache_callback {β : Type} (dumps : β → String) (llm_data : β) :
    List (Answer String) × β :=
  ([⟨dumps llm_data, DataType.STR⟩], llm_data)

/-! ## Claims C1 and C2: the chat streaming extractor -/

/-- C1: on an `Iterator` input, `ChatCompletion._update_cache_callback` stores
nothing up front and returns a lazy sequence that, pulled to exhaustion (more
pulls than chunks), yields every backend chunk unchanged and in order, and then
invokes `update_cache_func` exactly once, after the last chunk, with the
concatenation of all chunk delta texts tagged `DataType.STR` (the TEXT kind). -/
theorem chat_stream_extractor_full_exhaustion {α β : Type} (getMsg : β → String)
    (delta : α → String) (xs : List α) (k : Nat) (hk : xs.length < k) :
    (ChatCompletion.update_cache_callback getMsg delta (ChatLLMData.stream xs)).1 = []
    ∧ (ChatCompletion.update_cache_callback getMsg delta (ChatLLMData.stream xs)).2
        = ChatCallbackReturn.stream (hookedStream delta xs)
    ∧ (hookedStream delta xs).pull k
        = (xs.map StreamEvent.yield)
          ++ [StreamEvent.store ⟨String.join (xs.map delta), DataType.STR⟩] := by
  refine ⟨rfl, rfl, ?_⟩
  have h := hook_openai_data_exhaust delta xs "" k hk
  simpa [hookedStream, String.empty_append] using h

/-- C1 witness: two concrete chunks pulled three times. -/
theorem chat_stream_extractor_full_exhaustion_witness :
    (["ab", "cd"] : List String).length < 3
    ∧ ((ChatCompletion.update_cache_callback (fun r : String => r)
          (fun c : String => c) (ChatLLMData.stream ["ab", "cd"])).1 = []
      ∧ (ChatCompletion.update_cache_callback (fun r : String => r)
          (fun c : String => c) (ChatLLMData.stream ["ab", "cd"])).2
          = ChatCallbackReturn.stream (hookedStream (fun c : String => c) ["ab", "cd"])
      ∧ (hookedStream (fun c : String => c) ["ab", "cd"]).pull 3
          = ((["ab", "cd"] : List String).map StreamEvent.yield)
            ++ [StreamEvent.store ⟨String.join ((["ab", "cd"] : List String).map
                  (fun c : String => c)), DataType.STR⟩]) :=
  ⟨by decide,
   chat_stream_extractor_full_exhaustion (fun r => r) (fun c => c) ["ab", "cd"] 3
     (by decide)⟩

/-- C2: if the consumer pulls only `k < n` elements of the extractor's output
and then abandons it, `update_cache_func` is never invoked: the trace of the
first `k` pulls holds exactly the first `k` chunks and no store event, and no
store happened at wrap time either. -/
theorem chat_stream_extractor_abandoned {α β : Type} (getMsg : β → String)
    (delta : α → String) (xs : List α) (k : Nat) (hk : k < xs.length) :
    (ChatCompletion.update_cache_callback getMsg delta (ChatLLMData.stream xs)).1 = []
    ∧ (hookedStream delta xs).pull k = (xs.take k).map StreamEvent.yield := by
  exact ⟨rfl, hook_openai_data_take delta xs "" k (Nat.le_of_lt hk)⟩

/-- C2 witness: three concrete chunks, only two pulled. -/
theorem chat_stream_extractor_abandoned_witness :
    2 < (["a", "b", "c"] : List String).length
    ∧ ((ChatCompletion.update_cache_callback (fun r : String => r)
          (fun c : String => c) (ChatLLMData.stream ["a", "b", "c"])).1 = []
      ∧ (hookedStream (fun c : String => c) ["a", "b", "c"]).pull 2
          = ((["a", "b", "c"] : List String).take 2).map StreamEvent.yield) :=
  ⟨by decide,
   chat_stream_extractor_abandoned (fun r => r) (fun c => c) ["a", "b", "c"] 2
     (by decide)⟩

/-! ## Claims C9 and C3: what the callbacks return and store -/

/-- The chunks the consumer sees from the hooked generator are exactly the
chunks pulled so far: accumulation never alters or drops a chunk. -/
theorem yieldsOf_hook_openai_data {α : Type} (delta : α → String) :
    ∀ (xs : List α) (acc : String) (k : Nat),
      yieldsOf (hook_openai_data delta xs acc k) = xs.take k := by
  intro xs
  induction xs with
  | nil =>
      intro acc k
      cases k <;> simp [hook_openai_data, yieldsOf]
  | cons x rest ih =>
      intro acc k
      cases k with
      | zero => rfl
      | succ k => simp [hook_openai_data, yieldsOf] at ih ⊢; rw [ih]

/-- The raw backend stream pulled `k` times also shows exactly the first `k`
chunks. -/
theorem yieldsOf_rawStream {α : Type} (xs : List α) (k : Nat) :
    yieldsOf ((rawStream xs).pull k) = xs.take k := by
  simp only [rawStream, yieldsOf, ← List.map_take, List.filterMap_map]
  exact List.filterMap_some _

/-- C9 counterexample: on a streaming (`Iterator`) input the chat callback
does not return the live response it was given: it returns a new generator.
Already on the empty backend stream the two objects are observably different:
one pull of the hooked generator fires the cache store, one pull of the raw
input stream produces nothing. -/
theorem chat_stream_callback_returns_new_object :
    (ChatCompletion.update_cache_callback (fun r : String => r)
        (fun c : String => c) (ChatLLMData.stream [])).2
      ≠ chatInputAsReturn (ChatLLMData.stream ([] : List String)) := by
  intro h
  simp only [ChatCompletion.update_cache_callback, chatInputAsReturn] at h
  injection h with h3
  have h4 := congrArg (fun s => s.pull 1) h3
  simp [hookedStream, rawStream, hook_openai_data] at h4

/-- C9 amended: every non-streaming cache-update callback (chat on a
non-`Iterator` response, completion, audio, image — for every
`response_format` —, moderation) returns the very `llm_data` it was given;
the chat callback on an `Iterator` input instead returns a new generator that
re-yields exactly the input's chunks (same chunks, same order, for every
number of pulls), its only difference being the added store at exhaustion. -/
theorem update_callbacks_return_input {α β γ δ ε ζ : Type}
    (getMsg : β → String) (delta : α → String) (r : β)
    (getText : γ → String) (c : γ)
    (getAudioText : δ → String) (a : δ)
    (fmt : String) (getB64 : ε → ImgPayload) (getUrl : ε → List Nat) (i : ε)
    (dumps : ζ → String) (m : ζ) (xs : List α) (k : Nat) :
    (ChatCompletion.update_cache_callback getMsg delta (ChatLLMData.resp r)).2
        = chatInputAsReturn (ChatLLMData.resp r)
    ∧ (Completion.update_cache_callback getText c).2 = c
    ∧ (Audio.update_cache_callback getAudioText a).2 = a
    ∧ (Image.update_cache_callback fmt getB64 getUrl i).2 = i
    ∧ (Moderation.update_cache_callback dumps m).2 = m
    ∧ (ChatCompletion.update_cache_callback getMsg delta (ChatLLMData.stream xs)).2
        = ChatCallbackReturn.stream (hookedStream delta xs)
    ∧ yieldsOf ((hookedStream delta xs).pull k) = yieldsOf ((rawStream xs).pull k) := by
  refine ⟨rfl, rfl, rfl, ?_, rfl, rfl, ?_⟩
  · unfold Image.update_cache_callback
    split_ifs <;> rfl
  · rw [yieldsOf_rawStream]
    exact yieldsOf_hook_openai_data delta xs "" k

/-- C3 counterexample: when the live call used `response_format="url"`, the
image cache-update callback stores the canonical answer with kind
`IMAGE_URL`, not `IMAGE_BASE64` (openai.py line 318). -/
theorem image_url_store_kind_not_base64 :
    ((Image.update_cache_callback "url" (fun b : List Nat => ImgPayload.bytes b)
        (fun b => b) [7, 8]).1.map Answer.answer_type) = [DataType.IMAGE_URL]
    ∧ DataType.IMAGE_URL ≠ DataType.IMAGE_BASE64 := by decide

/-- C3 amended: at cache-write time the image callback stores, for
`response_format="b64_json"`, the base64 payload extracted by
`get_image_from_openai_b64` (ascii-encoded to bytes when it arrived as `str`)
under kind `IMAGE_BASE64`; for `response_format="url"` it stores the output of
`get_image_from_openai_url` under kind `IMAGE_URL` — the stored kind is not
`IMAGE_BASE64` in the url case. -/
theorem image_store_kinds {β : Type} (getB64 : β → ImgPayload)
    (getUrl : β → List Nat) (d : β) :
    (Image.update_cache_callback "b64_json" getB64 getUrl d).1
      = [⟨(match getB64 d with | .str s => asciiEncode s | .bytes b => b),
          DataType.IMAGE_BASE64⟩]
    ∧ (Image.update_cache_callback "url" getB64 getUrl d).1
      = [⟨getUrl d, DataType.IMAGE_URL⟩] :=
  ⟨rfl, rfl⟩

/-! ## Image response builder (`_construct_image_create_resp_from_cache`,
openai.py lines 458-489)

The builder decodes the stored base64 payload, opens it as an image, resizes
and JPEG re-encodes when the decoded dimensions differ from the requested
`size`, and then either writes the bytes to a time-derived file (the `url`
format), base64-encodes them (the `b64_json` format), or raises naming the
unsupported format. PIL and base64 are external primitives; they enter as an
`ImageCodec` whose proof fields state only what the spec guarantees of them:
resizing yields exactly the requested dimensions, and a JPEG re-encode decodes
back to an image of the same dimensions. -/

/-- A decoded raster image: dimensions plus opaque pixel data (the PIL image
object). -/
structure PILImage where
  width : Nat
  height : Nat
  pix : List Nat
deriving DecidableEq, Repr

/-- The external image/base64 primitives the builder calls, with the
dimension laws the spec assumes of them (resize hits the requested size
exactly; a JPEG re-encode re-opens to the same dimensions). -/
structure ImageCodec where
  b64decode : List Nat → List Nat
  b64encode : List Nat → List Nat
  open_img : List Nat → Option PILImage
  resize : PILImage → Nat → Nat → PILImage
  save_jpeg : PILImage → List Nat
  resize_width : ∀ i w h, (resize i w h).width = w
  resize_height : ∀ i w h, (resize i w h).height = h
  open_save : ∀ i, ∃ j, open_img (save_jpeg i) = some j
    ∧ j.width = i.width ∧ j.height = i.height

/-- How the builder can raise: the `AttributeError` naming an unsupported
`response_format` (the spec's `InvalidArgument`), a payload that does not open
as an image, or a malformed `size` (Python `int(a)` or PIL `resize` raising). -/
inductive BuildErr where
  | invalidFormat (msg : String)
  | openFailed
  | resizeFailed
deriving DecidableEq, Repr

/-- Python `str.split(sep)` for a one-character separator, on the character
list of the string: splits into the (possibly empty) groups between
occurrences of `c`. -/
def splitOnChar (c : Char) : List Char → List (List Char)
  | [] => [[]]
  | a :: rest =>
    let r := splitOnChar c rest
    if a = c then [] :: r
    else match r with
      | [] => [[a]]
      | g :: gs => (a :: g) :: gs

/-- Python `int(a)` on a decimal numeral, `none` when `a` is empty or holds a
non-digit (Python `int` raising `ValueError`). -/
def digitsToNat? (cs : List Char) : Option Nat :=
  if cs.isEmpty then none
  else cs.foldl (fun acc? ch => acc?.bind fun acc =>
        if ch.isDigit then some (acc * 10 + (ch.toNat - 48)) else none)
      (some 0)

/-- `tuple(int(a) for a in size.split("x"))` (openai.py line 465): the parsed
components of the `size` string, `none` when some component is not a numeral
(Python `int` raising). -/
def parseSize (size : String) : Option (List Nat) :=
  (splitOnChar 'x' size.data).mapM digitsToNat?

/-- The single entry of the returned `data` list: a file path under key
`url`, or a base64 payload under key `b64_json`. -/
inductive ImgField where
  | url (path : String)
  | b64 (payload : List Nat)
deriving DecidableEq, Repr

/-- The envelope `{"gptcache": True, "created": ..., "data": [{response_format:
image_data}]}` returned on success (openai.py lines 485-489). -/
structure ImageEnvelope where
  gptcache : Bool
  created : Nat
  data : List (String × ImgField)
deriving DecidableEq, Repr

/-- Lines 462-471 of openai.py: the `buffered` bytes the builder goes on to
write or base64-encode. Decode the stored base64 payload, open it as an image;
when the parsed `size` differs from the image's dimensions, resize and
re-encode as JPEG, otherwise reuse the decoded bytes unchanged. -/
def bufferedOf (c : ImageCodec) (image_data : List Nat) (size : String) :
    Except BuildErr (List Nat) :=
  let img_bytes := c.b64decode image_data
  match c.open_img img_bytes with
  | none => .error .openFailed
  | some img =>
    match parseSize size with
    | none => .error .resizeFailed
    | some new_size =>
      if new_size ≠ [img.width, img.height] then
        match new_size with
        | [w, h] => .ok (c.save_jpeg (c.resize img w h))
        | _ => .error .resizeFailed
      else .ok img_bytes

/-- The file name `str(int(time.time())) + ".jpeg"` (line 474); `os.path.abspath`
is an external path primitive and is left as the name itself. -/
def imageFileName (now : Nat) : String := toString now ++ ".jpeg"

/-- `_construct_image_create_resp_from_cache` (openai.py lines 458-489):
the list of file writes (path, content) performed, paired with either the
envelope or the raised error. For format `url` the buffered bytes are written
to the time-derived file and the path is returned; for `b64_json` the base64
encoding of the buffered bytes is returned; for any other format an
`AttributeError` naming the format is raised and nothing is written. -/
def _construct_image_create_resp_from_cache (c : ImageCodec) (now : Nat)
    (image_data : List Nat) (response_format : String) (size : String) :
    List (String × List Nat) × Except BuildErr ImageEnvelope :=
  match bufferedOf c image_data size with
  | .error e => ([], .error e)
  | .ok buffered =>
    if response_format = "url" then
      let target_url := imageFileName now
      ([(target_url, buffered)],
        .ok ⟨true, now, [("url", ImgField.url target_url)]⟩)
    else if response_format = "b64_json" then
      ([], .ok ⟨true, now, [("b64_json", ImgField.b64 (c.b64encode buffered))]⟩)
    else
      ([], .error (.invalidFormat
        ("Invalid response_format: " ++ response_format
          ++ " is not one of ['url', 'b64_json']")))

/-- C4: for every `response_format` other than `url` and `b64_json`, the image
builder — once the stored answer decodes (the error is raised after the
decode/resize stage) — fails with the invalid-format error whose message names
the unsupported value, writes no file, and returns no envelope. -/
theorem image_builder_invalid_format (c : ImageCodec) (now : Nat)
    (image_data : List Nat) (response_format size : String) (buffered : List Nat)
    (h1 : response_format ≠ "url") (h2 : response_format ≠ "b64_json")
    (h3 : bufferedOf c image_data size = .ok buffered) :
    _construct_image_create_resp_from_cache c now image_data response_format size
      = ([], .error (.invalidFormat
          ("Invalid response_format: " ++ response_format
            ++ " is not one of ['url', 'b64_json']"))) := by
  unfold _construct_image_create_resp_from_cache
  rw [h3]
  simp [h1, h2]

/-- A concrete codec for witnesses: images serialize as
`width :: height :: pixels`, base64 is the identity embedding, resize replaces
the dimensions. -/
def toyCodec : ImageCodec where
  b64decode := fun b => b
  b64encode := fun b => b
  open_img := fun b => match b with
    | w :: h :: p => some ⟨w, h, p⟩
    | _ => none
  resize := fun i w h => ⟨w, h, i.pix⟩
  save_jpeg := fun i => i.width :: i.height :: i.pix
  resize_width := fun _ _ _ => rfl
  resize_height := fun _ _ _ => rfl
  open_save := fun i => ⟨⟨i.width, i.height, i.pix⟩, rfl, rfl, rfl⟩

/-- C4 witness: a 1x1 stored image, requested size `1x1`, format `bogus`. -/
theorem image_builder_invalid_format_witness :
    (("bogus" : String) ≠ "url" ∧ ("bogus" : String) ≠ "b64_json"
      ∧ bufferedOf toyCodec [1, 1, 7] "1x1" = .ok [1, 1, 7])
    ∧ _construct_image_create_resp_from_cache toyCodec 99 [1, 1, 7] "bogus" "1x1"
        = ([], .error (.invalidFormat
            ("Invalid response_format: " ++ "bogus"
              ++ " is not one of ['url', 'b64_json']"))) :=
  ⟨⟨by decide, by decide, by rfl⟩,
   image_builder_invalid_format toyCodec 99 [1, 1, 7] "bogus" "1x1" [1, 1, 7]
     (by decide) (by decide) (by rfl)⟩

/-- C5: when the stored image's decoded dimensions equal the requested
`size = "WxH"`, the builder reuses the decoded stored bytes unchanged (no
re-encode): the `url`-format output file holds exactly those bytes. When the
dimensions differ, the builder re-encodes: the output bytes are the JPEG
encoding of the resized image and decode to dimensions exactly `(W, H)`. -/
theorem image_builder_resize (c : ImageCodec) (now : Nat) (image_data : List Nat)
    (size : String) (w h : Nat) (img : PILImage)
    (h3 : c.open_img (c.b64decode image_data) = some img)
    (h4 : parseSize size = some [w, h]) :
    (img.width = w ∧ img.height = h →
        bufferedOf c image_data size = .ok (c.b64decode image_data)
        ∧ _construct_image_create_resp_from_cache c now image_data "url" size
            = ([(imageFileName now, c.b64decode image_data)],
               .ok ⟨true, now, [("url", ImgField.url (imageFileName now))]⟩))
    ∧ (¬(img.width = w ∧ img.height = h) →
        ∃ j : PILImage,
          bufferedOf c image_data size = .ok (c.save_jpeg (c.resize img w h))
          ∧ c.open_img (c.save_jpeg (c.resize img w h)) = some j
          ∧ j.width = w ∧ j.height = h
          ∧ _construct_image_create_resp_from_cache c now image_data "url" size
              = ([(imageFileName now, c.save_jpeg (c.resize img w h))],
                 .ok ⟨true, now, [("url", ImgField.url (imageFileName now))]⟩)) := by
  constructor
  · rintro ⟨hw, hh⟩
    have hbuf : bufferedOf c image_data size = .ok (c.b64decode image_data) := by
      simp [bufferedOf, h3, h4, hw, hh]
    refine ⟨hbuf, ?_⟩
    unfold _construct_image_create_resp_from_cache
    rw [hbuf]
    simp [imageFileName]
  · intro hne
    have hcond : ([w, h] ≠ [img.width, img.height]) := by
      intro he
      simp only [List.cons.injEq, and_true] at he
      exact hne ⟨he.1.symm, he.2.symm⟩
    have hbuf : bufferedOf c image_data size
        = .ok (c.save_jpeg (c.resize img w h)) := by
      simp only [bufferedOf, h3, h4]
      rw [if_pos hcond]
    obtain ⟨j, hj, hjw, hjh⟩ := c.open_save (c.resize img w h)
    refine ⟨j, hbuf, hj, ?_, ?_, ?_⟩
    · rw [hjw, c.resize_width]
    · rw [hjh, c.resize_height]
    · unfold _construct_image_create_resp_from_cache
      rw [hbuf]
      simp [imageFileName]

/-- C5 witness: a stored 2x2 image, requested size `1x1`: the builder
re-encodes and the output decodes to dimensions 1x1. -/
theorem image_builder_resize_witness :
    (toyCodec.open_img (toyCodec.b64decode [2, 2, 9])
        = some (⟨2, 2, [9]⟩ : PILImage)
      ∧ parseSize "1x1" = some [1, 1])
    ∧ (((⟨2, 2, [9]⟩ : PILImage).width = 1 ∧ (⟨2, 2, [9]⟩ : PILImage).height = 1 →
        bufferedOf toyCodec [2, 2, 9] "1x1" = .ok (toyCodec.b64decode [2, 2, 9])
        ∧ _construct_image_create_resp_from_cache toyCodec 5 [2, 2, 9] "url" "1x1"
            = ([(imageFileName 5, toyCodec.b64decode [2, 2, 9])],
               .ok ⟨true, 5, [("url", ImgField.url (imageFileName 5))]⟩))
      ∧ (¬((⟨2, 2, [9]⟩ : PILImage).width = 1 ∧ (⟨2, 2, [9]⟩ : PILImage).height = 1) →
        ∃ j : PILImage,
          bufferedOf toyCodec [2, 2, 9] "1x1"
              = .ok (toyCodec.save_jpeg (toyCodec.resize ⟨2, 2, [9]⟩ 1 1))
          ∧ toyCodec.open_img (toyCodec.save_jpeg (toyCodec.resize ⟨2, 2, [9]⟩ 1 1))
              = some j
          ∧ j.width = 1 ∧ j.height = 1
          ∧ _construct_image_create_resp_from_cache toyCodec 5 [2, 2, 9] "url" "1x1"
              = ([(imageFileName 5, toyCodec.save_jpeg (toyCodec.resize ⟨2, 2, [9]⟩ 1 1))],
                 .ok ⟨true, 5, [("url", ImgField.url (imageFileName 5))]⟩))) :=
  ⟨⟨rfl, rfl⟩,
   image_builder_resize toyCodec 5 [2, 2, 9] "1x1" 1 1 ⟨2, 2, [9]⟩ rfl rfl⟩

/-! ## Moderation consistency retry (`Moderation.create`, openai.py lines
367-391)

`Moderation.create` calls the orchestration core `adapt` (external: a
parameter mapping the call's keyword arguments to a response), reads the
request's `input` back from the kwargs, computes the expected result count,
and when the response's `results` list has a different length, re-issues the
call exactly once with `cache_skip = True` and returns that second response. -/

/-- The moderation request's `input` keyword: a single string or a list of
strings (the Python code tests `isinstance(input_request_param, List)`). -/
inductive ModInput where
  | str (s : String)
  | list (xs : List String)
deriving DecidableEq, Repr

/-- The keyword arguments of a moderation call, as far as `Moderation.create`
reads or writes them: the `input` parameter and the `cache_skip` flag handed
to the orchestration core. -/
structure ModKwargs where
  input : ModInput
  cache_skip : Bool
deriving DecidableEq, Repr

/-- A moderation response as `Moderation.create` inspects it: its `results`
list (elements of type `ρ`, opaque per-input results). -/
structure ModResponse (ρ : Type) where
  results : List ρ
deriving DecidableEq, Repr

/-- `expect_res_len` (openai.py lines 379-381): 1, overridden by the list
length when `input` is a list. -/
def expect_res_len : ModInput → Nat
  | .str _ => 1
  | .list xs => xs.length

/-- `Moderation.create` (openai.py lines 367-391), instrumented with the list
of kwargs each `adapt` invocation received: the first call runs with the given
kwargs; on a result-count mismatch the call is re-issued once with
`cache_skip := true` and that response is returned, otherwise the first
response is returned with no retry. -/
def Moderation.create {ρ : Type} (adaptFn : ModKwargs → ModResponse ρ)
    (kwargs : ModKwargs) : List ModKwargs × ModResponse ρ :=
  let res := adaptFn kwargs
  if res.results.length ≠ expect_res_len kwargs.input then
    let kwargs2 : ModKwargs := { kwargs with cache_skip := true }
    ([kwargs, kwargs2], adaptFn kwargs2)
  else
    ([kwargs], res)

/-- C6: `Moderation.create` expects 1 result for a string input and the list
length for a list input; on a count mismatch of the first response it
re-issues the call exactly once, with `cache_skip` set to `true` and the rest
of the kwargs unchanged, and returns the second response; on a match it
returns the first response and performs no retry. -/
theorem moderation_retry_protocol {ρ : Type} (adaptFn : ModKwargs → ModResponse ρ)
    (kwargs : ModKwargs) (s : String) (xs : List String) :
    expect_res_len (ModInput.str s) = 1
    ∧ expect_res_len (ModInput.list xs) = xs.length
    ∧ ((adaptFn kwargs).results.length = expect_res_len kwargs.input →
        Moderation.create adaptFn kwargs = ([kwargs], adaptFn kwargs))
    ∧ ((adaptFn kwargs).results.length ≠ expect_res_len kwargs.input →
        Moderation.create adaptFn kwargs
          = ([kwargs, { kwargs with cache_skip := true }],
             adaptFn { kwargs with cache_skip := true })) := by
  refine ⟨rfl, rfl, ?_, ?_⟩
  · intro heq
    simp [Moderation.create, heq]
  · intro hne
    simp [Moderation.create, hne]

/-- C7 counterexample: the cardinality guarantee does not hold under arbitrary
backend behaviour. With a single-string input (expected count 1) and a backend
whose fresh result is empty, `Moderation.create` returns the mismatched empty
response: the retry's result is returned unchecked (openai.py line 391). -/
theorem moderation_cardinality_not_guaranteed :
    ((Moderation.create (fun _ => (⟨[]⟩ : ModResponse Nat))
        ⟨ModInput.str "x", false⟩).2).results.length
      ≠ expect_res_len (ModInput.str "x") := by
  decide

/-- C7 amended: a caller receives a response whose result count equals the
request's batch size provided the cache-bypassing (`cache_skip = true`) call
returns a response of the correct cardinality — the code trusts the forced
fresh result by construction and does not re-check it. Under that trust
assumption the guarantee holds for every cache/backend behaviour of the first
call. -/
theorem moderation_cardinality_under_trust {ρ : Type}
    (adaptFn : ModKwargs → ModResponse ρ) (kwargs : ModKwargs)
    (htrust : (adaptFn { kwargs with cache_skip := true }).results.length
        = expect_res_len kwargs.input) :
    ((Moderation.create adaptFn kwargs).2).results.length
      = expect_res_len kwargs.input := by
  unfold Moderation.create
  by_cases hfirst :
      (adaptFn kwargs).results.length = expect_res_len kwargs.input
  · simp [hfirst]
  · simp [hfirst, htrust]

/-- C7 amended witness: a backend that answers every call with a two-element
result list, on a two-element batch. -/
theorem moderation_cardinality_under_trust_witness :
    (((fun _ => (⟨[4, 5]⟩ : ModResponse Nat))
        ({ input := ModInput.list ["a", "b"], cache_skip := true } : ModKwargs)).results.length
      = expect_res_len (ModInput.list ["a", "b"]))
    ∧ ((Moderation.create (fun _ => (⟨[4, 5]⟩ : ModResponse Nat))
        ⟨ModInput.list ["a", "b"], false⟩).2).results.length
      = expect_res_len (ModInput.list ["a", "b"]) :=
  ⟨by decide,
   moderation_cardinality_under_trust (fun _ => (⟨[4, 5]⟩ : ModResponse Nat))
     ⟨ModInput.list ["a", "b"], false⟩ (by decide)⟩

/-! ## Token accounting and the chat response builders
(`_num_tokens_from_messages`, openai.py lines 499-514;
`cache_data_convert`, lines 118-127; `_construct_resp_from_cache`, lines
394-408; `_construct_stream_resp_from_cache`, lines 411-439)

The tokenizer `token_counter` is external (`gptcache.utils.token`) and enters
as a parameter `tc`. A chat message is its Python dict, embedded as the
association list of its (key, value) items. -/

/-- `_num_tokens_from_messages` (openai.py lines 499-514):
`tokens_per_message = 3` added per message, plus `token_counter(value)` for
every item of the message, plus `tokens_per_name = 1` for every item whose key
is `"name"`, plus the trailing reply-priming constant 3. -/
def _num_tokens_from_messages (tc : String → Nat)
    (messages : List (List (String × String))) : Nat :=
  (messages.foldl
    (fun num_tokens message =>
      message.foldl
        (fun n kv => n + tc kv.2 + (if kv.1 = "name" then 1 else 0))
        (num_tokens + 3))
    0) + 3

/-- The message object of a cached chat choice. -/
structure ChatMessage where
  role : String
  content : String
deriving DecidableEq, Repr

/-- One choice of a cached chat response. -/
structure ChatChoice where
  message : ChatMessage
  finish_reason : String
  index : Nat
deriving DecidableEq, Repr

/-- The zeroed usage block of a cache-served response. -/
structure ChatUsage where
  completion_tokens : Nat
  prompt_tokens : Nat
  total_tokens : Nat
deriving DecidableEq, Repr

/-- The non-streaming cache-served chat envelope (openai.py lines 394-408). -/
structure ChatResp where
  gptcache : Bool
  saved_token : List Nat
  choices : List ChatChoice
  created : Nat
  usage : ChatUsage
  object : String
deriving DecidableEq, Repr

/-- `_construct_resp_from_cache` (openai.py lines 394-408). `int(time.time())`
is the external clock, parameter `now`. -/
def _construct_resp_from_cache (return_message : String) (saved_token : List Nat)
    (now : Nat) : ChatResp where
  gptcache := true
  saved_token := saved_token
  choices := [{ message := { role := "assistant", content := return_message },
                finish_reason := "stop", index := 0 }]
  created := now
  usage := ⟨0, 0, 0⟩
  object := "chat.completion"

/-- The `delta` object of a synthesized stream chunk: the role-opening form,
the full-content form, or the empty terminal form. -/
inductive CachedDelta where
  | role (r : String)
  | content (c : String)
  | empty
deriving DecidableEq, Repr

/-- One choice of a synthesized stream chunk. -/
structure CachedChunkChoice where
  delta : CachedDelta
  finish_reason : Option String
  index : Nat
deriving DecidableEq, Repr

/-- One synthesized cache-served stream chunk; `gptcache` and `saved_token`
are present only on the terminal chunk. -/
structure CachedChunk where
  gptcache : Option Bool
  choices : List CachedChunkChoice
  created : Nat
  object : String
  saved_token : Option (List Nat)
deriving DecidableEq, Repr

/-- `_construct_stream_resp_from_cache` (openai.py lines 411-439): the
role-opening chunk, the full-content chunk, and the terminal chunk carrying
the cache marker and `saved_token`. -/
def _construct_stream_resp_from_cache (return_message : String)
    (saved_token : List Nat) (now : Nat) : List CachedChunk :=
  [{ gptcache := none,
     choices := [{ delta := .role "assistant", finish_reason := none, index := 0 }],
     created := now, object := "chat.completion.chunk", saved_token := none },
   { gptcache := none,
     choices := [{ delta := .content return_message, finish_reason := none, index := 0 }],
     created := now, object := "chat.completion.chunk", saved_token := none },
   { gptcache := some true,
     choices := [{ delta := .empty, finish_reason := some "stop", index := 0 }],
     created := now, object := "chat.completion.chunk",
     saved_token := some saved_token }]

/-- What the chat `cache_data_convert` returns: a full envelope, or the
synthesized 3-chunk stream. -/
inductive ChatConvertOut where
  | resp (r : ChatResp)
  | stream (chunks : List CachedChunk)
deriving DecidableEq, Repr

/-- The closure `cache_data_convert` of `ChatCompletion.create` (openai.py
lines 118-127): when `enable_token_counter` is set, `saved_token` is the
prompt count `_num_tokens_from_messages` paired with `token_counter` of the
cached answer; otherwise `[0, 0]`. The `stream` keyword selects the stream or
envelope builder. -/
def cache_data_convert (enable_token_counter : Bool) (tc : String → Nat)
    (messages : List (List (String × String))) (stream : Bool) (now : Nat)
    (cache_data : String) : ChatConvertOut :=
  let saved_token :=
    if enable_token_counter then
      [_num_tokens_from_messages tc messages, tc cache_data]
    else [0, 0]
  if stream then
    .stream (_construct_stream_resp_from_cache cache_data saved_token now)
  else
    .resp (_construct_resp_from_cache cache_data saved_token now)

/-- The token cost a caller reads off a cache hit: the `saved_token` field of
the envelope, or of the terminal chunk of the synthesized stream. -/
def reported_saved_token : ChatConvertOut → Option (List Nat)
  | .resp r => some r.saved_token
  | .stream cs => cs.getLast?.bind fun c => c.saved_token

/-- Folding the per-item token step over one message, from any base. -/
theorem message_fold_eq (tc : String → Nat) (m : List (String × String)) :
    ∀ b : Nat,
      m.foldl (fun n kv => n + tc kv.2 + (if kv.1 = "name" then 1 else 0)) b
        = b + (m.map fun kv => tc kv.2).sum + (m.map Prod.fst).count "name" := by
  induction m with
  | nil => intro b; simp
  | cons kv rest ih =>
      intro b
      simp only [List.foldl_cons, List.map_cons, List.sum_cons, ih,
        List.count_cons]
      by_cases hk : kv.1 = "name"
      · simp [hk]
        omega
      · have : ¬("name" == kv.1) := by
          simp [BEq.beq]
          exact fun he => hk he.symm
        simp [hk, this]
        omega

/-- Folding the per-message step over the message list, from any base. -/
theorem messages_fold_eq (tc : String → Nat)
    (messages : List (List (String × String))) :
    ∀ b : Nat,
      messages.foldl
        (fun num_tokens message =>
          message.foldl
            (fun n kv => n + tc kv.2 + (if kv.1 = "name" then 1 else 0))
            (num_tokens + 3))
        b
      = b + (messages.map fun m =>
          3 + (m.map fun kv => tc kv.2).sum + (m.map Prod.fst).count "name").sum := by
  induction messages with
  | nil => intro b; simp
  | cons m rest ih =>
      intro b
      rw [List.foldl_cons, ih, message_fold_eq]
      simp only [List.map_cons, List.sum_cons]
      omega

/-- With at most one `"name"` key per message (a Python dict cannot repeat a
key), the per-occurrence bonus is the presence bonus. -/
theorem count_name_of_at_most_one (keys : List String)
    (h : keys.count "name" ≤ 1) :
    keys.count "name" = if "name" ∈ keys then 1 else 0 := by
  by_cases hm : "name" ∈ keys
  · have h1 : 0 < keys.count "name" := List.count_pos_iff.mpr hm
    rw [if_pos hm]
    omega
  · rw [if_neg hm, List.count_eq_zero_of_not_mem hm]

/-- C8: on a chat cache hit with token accounting disabled, the reported token
cost is `[0, 0]` and the result does not depend on the tokenizer at all (the
tokenizer is never invoked); with accounting enabled, the reported input-token
count is the sum over all messages of (3 + the token count of every field
value + 1 extra when a `"name"` field is present) plus the trailing reply
priming constant 3, and the output count is the tokenizer on the cached
answer. Holds for the envelope and for the synthesized stream alike. -/
theorem chat_token_accounting (tc tcOther : String → Nat)
    (messages : List (List (String × String))) (stream : Bool) (now : Nat)
    (cache_data : String)
    (hname : ∀ m ∈ messages, ((m.map Prod.fst).count "name") ≤ 1) :
    reported_saved_token (cache_data_convert false tc messages stream now cache_data)
        = some [0, 0]
    ∧ cache_data_convert false tc messages stream now cache_data
        = cache_data_convert false tcOther messages stream now cache_data
    ∧ reported_saved_token (cache_data_convert true tc messages stream now cache_data)
        = some [(messages.map fun m =>
              3 + (m.map fun kv => tc kv.2).sum
                + (if "name" ∈ m.map Prod.fst then 1 else 0)).sum + 3,
            tc cache_data] := by
  refine ⟨?_, ?_, ?_⟩
  · cases stream <;> rfl
  · rfl
  · have hnum : _num_tokens_from_messages tc messages
        = (messages.map fun m =>
            3 + (m.map fun kv => tc kv.2).sum
              + (if "name" ∈ m.map Prod.fst then 1 else 0)).sum + 3 := by
      unfold _num_tokens_from_messages
      rw [messages_fold_eq]
      have hmaps : (messages.map fun m =>
            3 + (m.map fun kv => tc kv.2).sum + (m.map Prod.fst).count "name")
          = (messages.map fun m =>
            3 + (m.map fun kv => tc kv.2).sum
              + (if "name" ∈ m.map Prod.fst then 1 else 0)) := by
        apply List.map_congr_left
        intro m hm
        rw [count_name_of_at_most_one _ (hname m hm)]
      rw [hmaps]
      omega
    cases stream <;>
      simp [cache_data_convert, reported_saved_token, hnum,
        _construct_stream_resp_from_cache, _construct_resp_from_cache]

/-- C8 witness: two messages, the second carrying a `"name"` field, tokenizer
= string length: input tokens `(3 + 4 + 2) + (3 + 3 + 1 + 1) + 3 = 20`. -/
theorem chat_token_accounting_witness :
    (∀ m ∈ [[("role", "user"), ("content", "hi")],
            [("name", "bob"), ("content", "x")]],
        ((m.map Prod.fst).count "name") ≤ 1)
    ∧ (reported_saved_token
        (cache_data_convert false String.length
          [[("role", "user"), ("content", "hi")],
           [("name", "bob"), ("content", "x")]] false 0 "resp")
          = some [0, 0]
      ∧ cache_data_convert false String.length
          [[("role", "user"), ("content", "hi")],
           [("name", "bob"), ("content", "x")]] false 0 "resp"
          = cache_data_convert false (fun _ => 0)
              [[("role", "user"), ("content", "hi")],
               [("name", "bob"), ("content", "x")]] false 0 "resp"
      ∧ reported_saved_token
          (cache_data_convert true String.length
            [[("role", "user"), ("content", "hi")],
             [("name", "bob"), ("content", "x")]] false 0 "resp")
          = some [([[("role", "user"), ("content", "hi")],
               [("name", "bob"), ("content", "x")]].map fun m =>
                3 + (m.map fun kv => String.length kv.2).sum
                  + (if "name" ∈ m.map Prod.fst then 1 else 0)).sum + 3,
              String.length "resp"]) :=
  ⟨by decide,
   chat_token_accounting String.length (fun _ => 0)
     [[("role", "user"), ("content", "hi")], [("name", "bob"), ("content", "x")]]
     false 0 "resp" (by decide)⟩

/-! ## Claim C10: `Image.create` argument defaulting (openai.py lines 298-330)

`Image.create` pops `response_format` (default `"url"`) and `size` (default
`"256x256"`) from the kwargs before building anything, then constructs the
cache-to-response builder closure, the update-callback closure, and the
`adapt` call (which forwards both values to the live-call delegate) from those
same two locals. We embed the entry point as the record of those three
constructions plus the two values handed to `adapt`. -/

/-- The optional keyword arguments of `Image.create` that the entry point
reads (absent = not passed). -/
structure ImageCreateArgs where
  response_format : Option String
  size : Option String
deriving DecidableEq, Repr

/-- What `Image.create` hands to the orchestration core: the two closures and
the `response_format`/`size` keywords the `adapt` call (and through it the
live-call delegate `_llm_handler`) receives. -/
structure ImageAdaptCall (β : Type) where
  cache_data_convert : ImageCodec → Nat → List Nat →
    List (String × List Nat) × Except BuildErr ImageEnvelope
  update_cache_callback : (β → ImgPayload) → (β → List Nat) → β →
    List (Answer (List Nat)) × β
  response_format : String
  size : String

/-- `Image.create` (openai.py lines 298-330): `kwargs.pop("response_format",
"url")` and `kwargs.pop("size", "256x256")`, then the builder closure, the
extractor closure and the adapt keywords all from the two popped values. -/
def Image.create (β : Type) (kwargs : ImageCreateArgs) : ImageAdaptCall β :=
  let response_format := kwargs.response_format.getD "url"
  let size := kwargs.size.getD "256x256"
  { cache_data_convert := fun c now cache_data =>
      _construct_image_create_resp_from_cache c now cache_data response_format size,
    update_cache_callback := fun getB64 getUrl llm_data =>
      Image.update_cache_callback response_format getB64 getUrl llm_data,
    response_format := response_format,
    size := size }

/-- C10: calling `Image.create` without `response_format` behaves exactly as
with `response_format = "url"`, and without `size` exactly as with
`size = "256x256"`; the defaults are applied once, before construction, so the
builder closure, the extractor closure and the adapt keywords (seen by the
live-call delegate) all carry the same defaulted values. -/
theorem image_create_defaults (β : Type) (fmt sz : String) :
    Image.create β ⟨none, some sz⟩ = Image.create β ⟨some "url", some sz⟩
    ∧ Image.create β ⟨some fmt, none⟩ = Image.create β ⟨some fmt, some "256x256"⟩
    ∧ Image.create β ⟨none, none⟩ = Image.create β ⟨some "url", some "256x256"⟩
    ∧ (Image.create β ⟨none, none⟩).response_format = "url"
    ∧ (Image.create β ⟨none, none⟩).size = "256x256"
    ∧ (Image.create β ⟨none, none⟩).cache_data_convert
        = (fun c now cache_data =>
            _construct_image_create_resp_from_cache c now cache_data "url" "256x256")
    ∧ (Image.create β ⟨none, none⟩).update_cache_callback
        = (fun getB64 getUrl llm_data =>
            Image.update_cache_callback "url" getB64 getUrl llm_data) :=
  ⟨rfl, rfl, rfl, rfl, rfl, rfl, rfl⟩

end GPTCacheOpenAI
